import Mathlib

/-!
A Lean model of the Twitch IRC chat bot in src/bot.py.

Strings are modelled as lists of characters; the Python string operations
used by the bot (substring test with the in operator, str.split on a
separator, str.lower) are reimplemented below with the same semantics.
Socket writes are modelled as the list of strings written, in order.
A Python ValueError raised by tuple unpacking of a split result with the
wrong number of parts is modelled by Option none at the parser level and
by a Boolean crashed flag at the dispatch-loop level, since nothing in
the code catches it.
-/

namespace Keenbot

abbrev Str := List Char

/-- The line delimiter used by the IRC protocol. -/
def crlf : Str := ['\r', '\n']

/-- Helper for the split functions: prepend a character to the first
segment of a segment list. -/
def consHead (c : Char) : List Str → List Str
  | [] => [[c]]
  | s :: ss => (c :: s) :: ss

/-- Python s.split with a two-character separator of carriage return and
line feed, scanning left to right, as used on line 156 of src/bot.py. -/
def crlfSplit : Str → List Str
  | [] => [[]]
  | [c] => [[c]]
  | c :: d :: rest =>
    if c = '\r' ∧ d = '\n' then [] :: crlfSplit rest
    else consHead c (crlfSplit (d :: rest))

/-- True when the string contains the two-character delimiter. -/
def hasCRLF : Str → Bool
  | [] => false
  | [_] => false
  | c :: d :: rest => if c = '\r' ∧ d = '\n' then true else hasCRLF (d :: rest)

/-- Python s.split with a single-character separator, as used on lines
239 to 241 of src/bot.py. -/
def charSplit (sep : Char) : Str → List Str
  | [] => [[]]
  | c :: rest =>
    if c = sep then [] :: charSplit sep rest
    else consHead c (charSplit sep rest)

/-- Does hay start with needle. -/
def strStartsWith : Str → Str → Bool
  | _, [] => true
  | [], _ :: _ => false
  | h :: hs, n :: ns => h == n && strStartsWith hs ns

/-- The Python in operator on strings: does hay contain needle as a
contiguous substring. -/
def strContains (hay needle : Str) : Bool :=
  match hay with
  | [] => strStartsWith [] needle
  | c :: t => strStartsWith (c :: t) needle || strContains t needle

/-- Python str.lower restricted to the ASCII range, as applied to the
chat message text on line 202 of src/bot.py. -/
def lowerStr (s : Str) : Str := s.map Char.toLower

/-- The dictionary returned by parse_private_message on lines 243 to 247
of src/bot.py. -/
structure PrivateMessageDetails where
  channel : Str
  username : Str
  message : Str
deriving DecidableEq

/-- parse_private_message, lines 239 to 247 of src/bot.py.  Each Python
tuple unpacking of a split result demands an exact number of parts and
raises ValueError otherwise; the three unpackings are modelled by the
three match patterns, and none models the raised ValueError. -/
def parse_private_message (server_message : Str) : Option PrivateMessageDetails :=
  match charSplit ':' server_message with
  | [_, server_message_details, message] =>
    match charSplit '!' server_message_details with
    | [username, details] =>
      match charSplit '#' details with
      | [_, channel] => some ⟨channel, username, message⟩
      | _ => none
    | _ => none
  | _ => none

/-- send_client_message, lines 171 to 180 of src/bot.py: the bytes
written to the socket are exactly the argument string, with nothing
appended. -/
def send_client_message (client_message : Str) : Str := client_message

/-- chat, lines 186 to 204 of src/bot.py.  Note the code lowercases the
message but not the username, and interpolates the channel as parsed. -/
def chat (username : Str) (d : PrivateMessageDetails) : Option Str :=
  if strContains (lowerStr d.message) username then
    some ("PRIVMSG #".data ++ d.channel ++ " :@".data ++ d.username ++ ", welcome to my stream.\r\n".data)
  else none

/-- The body of the for loop in listen, lines 156 to 165 of src/bot.py,
applied to one line: the PING test and the PRIVMSG test are two
independent if statements.  Returns the writes performed and a flag that
is true when parse_private_message raised, which aborts the loop. -/
def processLine (username line : Str) : List Str × Bool :=
  let pongWrites :=
    if strContains line ("PING".data) then [send_client_message ("PONG :tmi.twitch.tv".data)] else []
  if strContains line ("PRIVMSG".data) then
    match parse_private_message line with
    | none => (pongWrites, true)
    | some d =>
      match chat username d with
      | some r => (pongWrites ++ [send_client_message r], false)
      | none => (pongWrites, false)
  else (pongWrites, false)

/-- Runs processLine over a list of lines in order, accumulating writes,
stopping at the first line whose processing raised. -/
def processLines (username : Str) : List Str → List Str × Bool
  | [] => ([], false)
  | l :: ls =>
    match processLine username l with
    | (w, true) => (w, true)
    | (w, false) =>
      match processLines username ls with
      | (ws, crashed) => (w ++ ws, crashed)

/-- The lines the read loop in listen dispatches for a sequence of
socket reads: line 156 of src/bot.py splits every chunk on the delimiter
by itself, with no buffer carried between reads. -/
def linesProduced : List Str → List Str
  | [] => []
  | c :: cs => crlfSplit c ++ linesProduced cs

/-- listen, lines 137 to 165 of src/bot.py, run over a finite sequence
of socket reads: the writes performed, and whether an uncaught
ValueError ended the loop. -/
def listen (username : Str) (chunks : List Str) : List Str × Bool :=
  processLines username (linesProduced chunks)

/-- authenticate, lines 113 to 119 of src/bot.py: the two writes it
performs, in order. -/
def authenticate (password username : Str) : List Str :=
  [("PASS ".data ++ password ++ "\r\n".data),
   ("NICK ".data ++ username ++ "\r\n".data)]

/-- join_channels, lines 125 to 131 of src/bot.py: one JOIN write per
configured channel, in configuration order. -/
def join_channels (channels : List Str) : List Str :=
  channels.map (fun channel => ("JOIN #".data ++ channel ++ "\r\n".data))

/-- The writes connect performs before its first socket read, lines 92
to 96 of src/bot.py: authenticate followed by join_channels. -/
def handshakeWrites (username password : Str) (channels : List Str) : List Str :=
  authenticate password username ++ join_channels channels

/-- The sentinel substring awaited on line 103 of src/bot.py. -/
def namesEndMarker : Str := "End of /NAMES list".data

/-- The while loop on lines 99 to 104 of src/bot.py: consume whole
chunks until one contains the sentinel, discarding every consumed chunk,
and return the chunks that remain for listen; none models a finite read
sequence in which the sentinel never arrives, where the loop blocks. -/
def awaitNames : List Str → Option (List Str)
  | [] => none
  | c :: rest => if strContains c namesEndMarker then some rest else awaitNames rest

/-- The read phase of connect, lines 99 to 107 of src/bot.py: the names
wait followed by the dispatch loop over the remaining reads. -/
def connectDispatch (username : Str) (chunks : List Str) : Option (List Str × Bool) :=
  (awaitNames chunks).map (listen username)

theorem consHead_cons (c : Char) (s : Str) (ss : List Str) :
    consHead c (s :: ss) = (c :: s) :: ss := rfl

theorem crlfSplit_cons_cons (c d : Char) (rest : Str) :
    crlfSplit (c :: d :: rest) =
      if c = '\r' ∧ d = '\n' then [] :: crlfSplit rest
      else consHead c (crlfSplit (d :: rest)) := rfl

theorem hasCRLF_cons_cons (c d : Char) (rest : Str) :
    hasCRLF (c :: d :: rest) =
      if c = '\r' ∧ d = '\n' then true else hasCRLF (d :: rest) := rfl

/-- A string without the delimiter splits into the single segment that
is the whole string. -/
theorem crlfSplit_of_not_hasCRLF (l : Str) (h : hasCRLF l = false) :
    crlfSplit l = [l] := by
  induction l with
  | nil => rfl
  | cons c l ih =>
    cases l with
    | nil => rfl
    | cons d rest =>
      by_cases hcd : c = '\r' ∧ d = '\n'
      · rw [hasCRLF_cons_cons, if_pos hcd] at h
        exact absurd h (by decide)
      · rw [hasCRLF_cons_cons, if_neg hcd] at h
        rw [crlfSplit_cons_cons, if_neg hcd, ih h, consHead_cons]

/-- Splitting a string that is a delimiter-free part followed by the
delimiter followed by a tail yields the part and then the split of the
tail. -/
theorem crlfSplit_append_crlf (l t : Str) (h : hasCRLF l = false) :
    crlfSplit (l ++ '\r' :: '\n' :: t) = l :: crlfSplit t := by
  induction l with
  | nil =>
    rw [List.nil_append, crlfSplit_cons_cons, if_pos ⟨rfl, rfl⟩]
  | cons c l ih =>
    cases l with
    | nil =>
      have hcd : ¬(c = '\r' ∧ ('\r' : Char) = '\n') := by
        rintro ⟨-, h2⟩
        exact absurd h2 (by decide)
      rw [List.cons_append, List.nil_append, crlfSplit_cons_cons, if_neg hcd,
        crlfSplit_cons_cons, if_pos ⟨rfl, rfl⟩, consHead_cons]
    | cons d rest =>
      by_cases hcd : c = '\r' ∧ d = '\n'
      · rw [hasCRLF_cons_cons, if_pos hcd] at h
        exact absurd h (by decide)
      · rw [hasCRLF_cons_cons, if_neg hcd] at h
        rw [List.cons_append, List.cons_append, crlfSplit_cons_cons, if_neg hcd,
          ← List.cons_append, ih h, consHead_cons]

/-- C1: the claim predicts that the chunk split AB then C crlf, whose
concatenation is the single terminated line ABC, yields exactly the one
Raw Line ABC, and that the unterminated chunk AB stays buffered and
yields nothing.  The read loop in listen instead splits each chunk by
itself: it yields the two fragments AB and C (plus an empty trailing
segment), and yields the unterminated AB immediately. -/
theorem C1_counterexample :
    ("AB".data ++ "C\r\n".data = "ABC\r\n".data) ∧
    linesProduced ["AB".data, "C\r\n".data] = ["AB".data, "C".data, []] ∧
    linesProduced ["AB".data, "C\r\n".data] ≠ ["ABC".data] ∧
    linesProduced ["AB".data] = ["AB".data] := by decide

/-- C1 amended: the read loop keeps no buffer between reads; every chunk
is split on the delimiter by itself and every segment is dispatched
immediately.  A line whose bytes arrive as a delimiter-free chunk a
followed by a chunk b plus delimiter is yielded as the two fragments a
and b (with a trailing empty segment), never reassembled, and a chunk
that is a trailing unterminated line is yielded at once instead of
staying buffered. -/
theorem C1_chunks_framed_independently (a b : Str)
    (ha : hasCRLF a = false) (hb : hasCRLF b = false) :
    linesProduced [a, b ++ crlf] = [a, b, []] ∧ linesProduced [a] = [a] := by
  have h1 := crlfSplit_of_not_hasCRLF a ha
  have h2 : crlfSplit (b ++ crlf) = [b, []] := by
    have h3 := crlfSplit_append_crlf b [] hb
    simpa [crlf, crlfSplit] using h3
  constructor
  · simp [linesProduced, h1, h2]
  · simp [linesProduced, h1]

/-- C1 witness: the amended theorem at the concrete chunks AB and C. -/
theorem C1_witness :
    linesProduced ["AB".data, "C".data ++ crlf] = ["AB".data, "C".data, []] ∧
    linesProduced ["AB".data] = ["AB".data] :=
  C1_chunks_framed_independently ("AB".data) ("C".data) (by decide) (by decide)

/-- C2: on a PRIVMSG line whose message body contains a colon, the split
on the colon separator produces more than three parts, so the three-name
tuple unpacking on line 239 of src/bot.py raises ValueError (modelled by
none) instead of returning the text after the second colon; in the
dispatch loop the line therefore produces no write and aborts the loop. -/
theorem C2_embedded_colon_crashes :
    parse_private_message (":u!u@u.tmi.twitch.tv PRIVMSG #c :check this out: http://x".data) = none ∧
    processLine ("bot".data) (":u!u@u.tmi.twitch.tv PRIVMSG #c :check this out: http://x".data) = ([], true) := by decide

/-- C3: a malformed PRIVMSG line is not skipped: the uncaught ValueError
from parse_private_message ends the loop, so the well-formed PING line
that follows it in the same read is never dispatched and no PONG is
written, where the claim predicts a skip, a PONG, and a live loop. -/
theorem C3_counterexample :
    listen ("bot".data) ["XPRIVMSG\r\nPING :tmi.twitch.tv".data] = ([], true) ∧
    (([], true) : List Str × Bool) ≠ ((["PONG :tmi.twitch.tv".data], false) : List Str × Bool) := by decide

/-- C3 amended: a line containing PRIVMSG on which parse_private_message
raises is fatal: the dispatch loop stops at that line with only the
writes that line itself performed, and no later line is processed. -/
theorem C3_malformed_is_fatal (u line : Str) (more : List Str)
    (hpriv : strContains line ("PRIVMSG".data) = true)
    (hmal : parse_private_message line = none) :
    processLines u (line :: more) = ((processLine u line).1, true) := by
  have h2 : (processLine u line).2 = true := by
    simp [processLine, hpriv, hmal]
  rcases hpl : processLine u line with ⟨w, b⟩
  rw [hpl] at h2
  simp only at h2
  subst h2
  simp [processLines, hpl]

/-- C3 witness: the amended theorem at a concrete malformed line, with a
valid PING line following it that is never reached. -/
theorem C3_witness :
    processLines ("bot".data) ["XPRIVMSG".data, "PING :tmi.twitch.tv".data] = ([], true) := by
  have h := C3_malformed_is_fatal ("bot".data) ("XPRIVMSG".data)
    ["PING :tmi.twitch.tv".data] (by decide) (by decide)
  simpa using h

/-- C4: a line containing PING produces exactly one write, but its
content is the bare string PONG colon tmi.twitch.tv with no terminating
delimiter: line 160 of src/bot.py passes the string without a trailing
delimiter and send_client_message appends nothing, unlike every other
outbound command in the file. -/
theorem C4_pong_missing_terminator :
    processLine ("bot".data) ("PING :tmi.twitch.tv".data) = (["PONG :tmi.twitch.tv".data], false) ∧
    ("PONG :tmi.twitch.tv".data : Str) ≠ "PONG :tmi.twitch.tv\r\n".data := by decide

/-- C5: parsing the canonical line yields username alice and text hello
world as claimed, but the channel is bobschannel followed by a space:
the split on the hash character keeps everything up to the next colon
and the code never trims whitespace, so the claimed trimmed channel
value is wrong. -/
theorem C5_counterexample :
    parse_private_message (":alice!alice@alice.tmi.twitch.tv PRIVMSG #bobschannel :hello world".data) =
      some ⟨"bobschannel ".data, "alice".data, "hello world".data⟩ ∧
    ("bobschannel ".data : Str) ≠ "bobschannel".data := by decide

/-- C5 amended: parsing the canonical line yields username alice, text
hello world, and channel bobschannel with its trailing space retained,
since the parser does not trim whitespace around the channel. -/
theorem C5_canonical_parse_untrimmed :
    parse_private_message (":alice!alice@alice.tmi.twitch.tv PRIVMSG #bobschannel :hello world".data) =
      some ⟨"bobschannel ".data, "alice".data, "hello world".data⟩ := by decide

theorem awaitNames_cons (c : Str) (rest : List Str) :
    awaitNames (c :: rest) =
      if strContains c namesEndMarker then some rest else awaitNames rest := rfl

/-- C6: the claim predicts a response exactly when ownUsername appears
case-insensitively in the text.  The code lowercases only the message,
not the username, so with ownUsername a single uppercase letter and a
text that is its lowercase form the username does appear
case-insensitively, yet chat returns no response. -/
theorem C6_counterexample :
    strContains (lowerStr ("a".data)) (lowerStr ("A".data)) = true ∧
    chat ("A".data) ⟨"c".data, "u".data, "a".data⟩ = none := by decide

/-- C6 amended: the policy returns a response exactly when ownUsername,
taken verbatim, is a substring of the lowercased message text, which is
case-insensitive only when ownUsername is already lowercase; when it
responds, the response is the greeting addressed to the username of the
message. -/
theorem C6_policy_matches_lowered_text (own : Str) (d : PrivateMessageDetails) :
    (strContains (lowerStr d.message) own = true →
      chat own d = some ("PRIVMSG #".data ++ d.channel ++ " :@".data ++ d.username ++ ", welcome to my stream.\r\n".data)) ∧
    (strContains (lowerStr d.message) own = false → chat own d = none) := by
  constructor <;> intro h <;> simp [chat, h]

/-- C6 witness: the amended theorem at the two test cases of the spec,
a greeting for the mentioning text and no response for the unrelated
text. -/
theorem C6_witness :
    chat ("wanshitongbot".data) ⟨"chan".data, "alice".data, "hey wanshitongbot how are you".data⟩ =
      some ("PRIVMSG #".data ++ "chan".data ++ " :@".data ++ "alice".data ++ ", welcome to my stream.\r\n".data) ∧
    chat ("wanshitongbot".data) ⟨"chan".data, "alice".data, "unrelated text".data⟩ = none :=
  ⟨(C6_policy_matches_lowered_text ("wanshitongbot".data)
      ⟨"chan".data, "alice".data, "hey wanshitongbot how are you".data⟩).1 (by decide),
   (C6_policy_matches_lowered_text ("wanshitongbot".data)
      ⟨"chan".data, "alice".data, "unrelated text".data⟩).2 (by decide)⟩

/-- C7: the handshake performs, in order, the PASS write, then the NICK
write as a separate write, then one JOIN write per configured channel in
configuration order. -/
theorem C7_handshake_order (username password : Str) (channels : List Str) :
    handshakeWrites username password channels =
      ("PASS ".data ++ password ++ "\r\n".data) ::
      ("NICK ".data ++ username ++ "\r\n".data) ::
      channels.map (fun channel => ("JOIN #".data ++ channel ++ "\r\n".data)) := rfl

/-- C8: after a zero-length read, the loop in listen dispatches the
lines of the next read rather than exiting: the PING arriving after the
empty read is answered with a PONG, which could not happen had the loop
exited at the zero-length read as the claim predicts. -/
theorem C8_counterexample :
    listen ("bot".data) [[], "PING :tmi.twitch.tv".data] = (["PONG :tmi.twitch.tv".data], false) ∧
    ((["PONG :tmi.twitch.tv".data], false) : List Str × Bool) ≠ (([], false) : List Str × Bool) := by decide

/-- C8 amended: a zero-length read decodes to the empty string, which
the loop processes as one empty line with no effect, and the loop then
continues with the next read; the session never leaves the loop on a
peer close. -/
theorem C8_zero_read_is_noop (u : Str) (chunks : List Str) :
    listen u ([] :: chunks) = listen u chunks := by
  have hP : strContains ([] : Str) ("PING".data) = false := by decide
  have hR : strContains ([] : Str) ("PRIVMSG".data) = false := by decide
  rcases h : processLines u (linesProduced chunks) with ⟨ws, crashed⟩
  simp [listen, linesProduced, crlfSplit, processLines, processLine, hP, hR, h]

/-- C9: a line containing both PING and PRIVMSG does not produce only
the PONG reaction: the two checks in listen are independent if
statements, so the line also goes through parse_private_message and
chat, here producing a second write. -/
theorem C9_counterexample :
    (processLine ("g".data) (":a!a@a.tmi.twitch.tv PRIVMSG #c :PING".data)).1 =
      ["PONG :tmi.twitch.tv".data, "PRIVMSG #c  :@a, welcome to my stream.\r\n".data] ∧
    (["PONG :tmi.twitch.tv".data, "PRIVMSG #c  :@a, welcome to my stream.\r\n".data] : List Str) ≠
      ["PONG :tmi.twitch.tv".data] := by decide

/-- C9 amended: the PING check and the PRIVMSG check are two
independent if statements, not alternatives: on a line containing both
substrings whose parse succeeds and whose chat policy responds, the
loop writes the PONG and then the chat response. -/
theorem C9_both_branches_fire (u line : Str) (d : PrivateMessageDetails) (r : Str)
    (hping : strContains line ("PING".data) = true)
    (hpriv : strContains line ("PRIVMSG".data) = true)
    (hp : parse_private_message line = some d)
    (hc : chat u d = some r) :
    processLine u line = (["PONG :tmi.twitch.tv".data, r], false) := by
  simp [processLine, send_client_message, hping, hpriv, hp, hc]

/-- C9 witness: the amended theorem at a concrete line containing both
substrings. -/
theorem C9_witness :
    processLine ("g".data) (":a!a@a.tmi.twitch.tv PRIVMSG #c :PING".data) =
      (["PONG :tmi.twitch.tv".data, "PRIVMSG #c  :@a, welcome to my stream.\r\n".data], false) :=
  C9_both_branches_fire ("g".data) (":a!a@a.tmi.twitch.tv PRIVMSG #c :PING".data)
    ⟨"c ".data, "a".data, "PING".data⟩ ("PRIVMSG #c  :@a, welcome to my stream.\r\n".data)
    (by decide) (by decide) (by decide) (by decide)

/-- C10: when the first chunk containing the names-end sentinel arrives,
the wait loop in connect discards that whole chunk, whatever else it
contains after the sentinel, and the dispatch loop runs only on the
chunks read afterwards. -/
theorem C10_marker_chunk_discarded (u c : Str) (pre rest : List Str)
    (hpre : ∀ p ∈ pre, strContains p namesEndMarker = false)
    (hc : strContains c namesEndMarker = true) :
    connectDispatch u (pre ++ c :: rest) = some (listen u rest) := by
  revert hpre
  induction pre with
  | nil =>
    intro hpre
    simp [connectDispatch, awaitNames_cons, hc]
  | cons p pre ih =>
    intro hpre
    have hp : strContains p namesEndMarker = false := hpre p (List.mem_cons_self p pre)
    have hpre2 : ∀ q ∈ pre, strContains q namesEndMarker = false :=
      fun q hq => hpre q (List.mem_cons_of_mem p hq)
    have hrec := ih hpre2
    calc connectDispatch u ((p :: pre) ++ c :: rest)
        = (awaitNames ((p :: pre) ++ c :: rest)).map (listen u) := rfl
      _ = (awaitNames (pre ++ c :: rest)).map (listen u) := by
            rw [List.cons_append, awaitNames_cons, hp]
            simp
      _ = some (listen u rest) := hrec

/-- C10 witness: the theorem at a single chunk that holds the sentinel
followed by a complete PING line; the PING is never dispatched and no
write occurs. -/
theorem C10_witness :
    connectDispatch ("bot".data) ["End of /NAMES list\r\nPING :tmi.twitch.tv\r\n".data] =
      some ([], false) := by
  have h := C10_marker_chunk_discarded ("bot".data)
      ("End of /NAMES list\r\nPING :tmi.twitch.tv\r\n".data) [] [] (by simp) (by decide)
  exact h.trans (by decide)

end Keenbot
